import Mathlib

/-
Shallow embedding of the message-processing core of the repository
API_Procesamiento_msg:

  app/utils/exceptions.py    -> PyErr
  app/utils/validators.py    -> MessageValidator, ContentFilter, PaginationValidator
  app/models/message.py      -> Message, Message.init, Message.to_dict
  app/repositories/message_repository.py -> pure model over a list of rows
  app/services/message_service.py        -> MessageService operations

Input dictionaries are modelled as association lists from field names to
Python values.  Per the interface contract (spec section 6) every input record
field is a string, so Python values are modelled as either None or a string;
an absent key is distinct from a key mapped to None.
-/

/-- Model of a Python value occurring in a message-data dict: None or a str. -/
inductive PyVal where
  | none
  | str (s : String)
deriving DecidableEq

/-- Python `str(v)` on the modelled values (`str(None) = "None"`). -/
def PyVal.pyStr : PyVal → String
  | PyVal.none => "None"
  | PyVal.str s => s

/-- Python truthiness of the modelled values: None is falsy, a string is truthy
iff it is non-empty. -/
def PyVal.truthy : PyVal → Bool
  | PyVal.none => false
  | PyVal.str s => s ≠ ""

/-- A message-data dict: association list from field name to value. -/
abbrev MsgData := List (String × PyVal)

/-- Python whitespace for `str.strip` / `str.split` (space, tab, newline,
carriage return, vertical tab, form feed). -/
def isPyWs (c : Char) : Bool :=
  c = ' ' || c = '\t' || c = '\n' || c = '\r' || c = '\x0b' || c = '\x0c'

/-- Python `s.strip()`: drop leading and trailing whitespace. -/
def pyStrip (s : String) : String :=
  String.mk (((s.toList.dropWhile isPyWs).reverse.dropWhile isPyWs).reverse)

/-- Python `len(s)` (counts characters, not bytes). -/
def pyLen (s : String) : Nat := s.toList.length

/-- Python `s.lower()` (ASCII case folding suffices for the modelled data). -/
def pyLower (s : String) : String := String.mk (s.toList.map Char.toLower)

/-- Auxiliary for `pySplitWs`: split a character list on whitespace runs. -/
def splitWsAux : List Char → List Char → List String
  | [], acc => if acc.isEmpty then [] else [String.mk acc.reverse]
  | c :: cs, acc =>
    if isPyWs c then
      if acc.isEmpty then splitWsAux cs [] else String.mk acc.reverse :: splitWsAux cs []
    else splitWsAux cs (c :: acc)

/-- Python `s.split()` with no argument: tokens separated by whitespace runs,
with no empty tokens. -/
def pySplitWs (s : String) : List String := splitWsAux s.toList []

/-- Whether `needle` is a prefix of `hay` (over characters). -/
def listPrefixB : List Char → List Char → Bool
  | [], _ => true
  | _ :: _, [] => false
  | a :: as, b :: bs => a = b && listPrefixB as bs

/-- Whether `needle` occurs as a contiguous sublist of `hay`. -/
def listSubB (needle : List Char) : List Char → Bool
  | [] => needle.isEmpty
  | c :: cs => listPrefixB needle (c :: cs) || listSubB needle cs

/-- Python `needle in hay` on strings: contiguous substring test. -/
def pyContains (hay needle : String) : Bool := listSubB needle.toList hay.toList

/-- A parsed timestamp (UTC point in time, second precision as in the data). -/
structure Timestamp where
  year : Nat
  month : Nat
  day : Nat
  hour : Nat
  minute : Nat
  second : Nat
deriving DecidableEq

/-- Numeric value of a digit character. -/
def digNat (c : Char) : Nat := c.toNat - 48

/-- Two-digit group to a number. -/
def dig2 (a b : Char) : Nat := digNat a * 10 + digNat b

/-- Parse the 19-character core `YYYY-MM-DDTHH:MM:SS` of an ISO-8601 string. -/
def parseIsoCore : List Char → Option Timestamp
  | [y1, y2, y3, y4, '-', o1, o2, '-', d1, d2, 'T', h1, h2, ':', n1, n2, ':', s1, s2] =>
    if ([y1, y2, y3, y4, o1, o2, d1, d2, h1, h2, n1, n2, s1, s2].all Char.isDigit) then
      let t : Timestamp :=
        { year := ((digNat y1 * 10 + digNat y2) * 10 + digNat y3) * 10 + digNat y4
          month := dig2 o1 o2
          day := dig2 d1 d2
          hour := dig2 h1 h2
          minute := dig2 n1 n2
          second := dig2 s1 s2 }
      if 1 ≤ t.month ∧ t.month ≤ 12 ∧ 1 ≤ t.day ∧ t.day ≤ 31 ∧
          t.hour ≤ 23 ∧ t.minute ≤ 59 ∧ t.second ≤ 59 then
        some t
      else Option.none
    else Option.none
  | _ => Option.none

/-- Drop a trailing `Z` or `+00:00` UTC marker before parsing the core
(the schema replaces `Z` by `+00:00` and both are accepted as UTC). -/
def stripTz (cs : List Char) : List Char :=
  if cs.length = 20 ∧ cs.getLast? = some 'Z' then cs.dropLast
  else if cs.length = 25 ∧ cs.drop 19 = ['+', '0', '0', ':', '0', '0'] then cs.take 19
  else cs

/-- Parse an ISO-8601 timestamp string, treating a trailing `Z` as UTC. -/
def parseTimestamp (s : String) : Option Timestamp := parseIsoCore (stripTz s.toList)

/-- Zero-padded two-digit rendering. -/
def pad2 (n : Nat) : String := if n < 10 then "0" ++ toString n else toString n

/-- Zero-padded four-digit rendering. -/
def pad4 (n : Nat) : String :=
  if n < 10 then "000" ++ toString n
  else if n < 100 then "00" ++ toString n
  else if n < 1000 then "0" ++ toString n
  else toString n

/-- Render the timestamp core `YYYY-MM-DDTHH:MM:SS` (offset rendering elided;
the external view appends a trailing Z, per spec section 6). -/
def Timestamp.isoformat (t : Timestamp) : String :=
  pad4 t.year ++ "-" ++ pad2 t.month ++ "-" ++ pad2 t.day ++ "T" ++
    pad2 t.hour ++ ":" ++ pad2 t.minute ++ ":" ++ pad2 t.second

/-- Lexicographic sort key of a timestamp. -/
def Timestamp.key (t : Timestamp) : Nat :=
  ((((t.year * 13 + t.month) * 32 + t.day) * 24 + t.hour) * 60 + t.minute) * 60 + t.second

/-- Ascending comparison on timestamps. -/
def Timestamp.leB (a b : Timestamp) : Bool := a.key ≤ b.key

/--
Errors raised by the embedded code, mirroring app/utils/exceptions.py plus the
Python builtin errors the source can actually hit.  The `details` dict of a
domain error holds at most one key mapped to a list of strings, which covers
every `details` literal in the source (`missing_fields`, `valid_senders`,
`inappropriate_words_found`).
-/
inductive PyErr where
  | validationError (message : String) (details : Option (String × List String))
  | invalidFormatError (message : String) (details : Option (String × List String))
  | inappropriateContentError (message : String) (details : Option (String × List String))
  | messageNotFoundError (message : String)
  | databaseError (message : String)
  | typeError (message : String)
  | attributeError (message : String)
  | keyError (key : String)
deriving DecidableEq

/-- The stable code string each domain exception sets in its constructor
(exceptions.py); Python builtin errors carry no such code. -/
def PyErr.code : PyErr → Option String
  | PyErr.validationError _ _ => some "VALIDATION_ERROR"
  | PyErr.invalidFormatError _ _ => some "INVALID_FORMAT"
  | PyErr.inappropriateContentError _ _ => some "INAPPROPRIATE_CONTENT"
  | PyErr.messageNotFoundError _ => some "NOT_FOUND"
  | PyErr.databaseError _ => some "DATABASE_ERROR"
  | _ => Option.none

/-- Message of the TypeError produced when `ValidationError` is called with the
keyword argument `code`: `ValidationError.__init__` (exceptions.py line 18)
accepts only `(message, details)`. -/
def valErrKwargMsg : String :=
  "ValidationError.init got an unexpected keyword argument code"

/-- MessageValidator.VALID_SENDERS (validators.py line 12). -/
def VALID_SENDERS : List String := ["user", "system"]

/-- MessageValidator.validate_session_id (validators.py lines 41-48). -/
def validate_session_id (v : PyVal) : Except PyErr Unit :=
  match v with
  | PyVal.none =>
    Except.error (PyErr.invalidFormatError "session_id debe ser una cadena no vacía" Option.none)
  | PyVal.str s =>
    if pyStrip s = "" then
      Except.error (PyErr.invalidFormatError "session_id debe ser una cadena no vacía" Option.none)
    else if pyLen s > 255 then
      Except.error
        (PyErr.invalidFormatError "session_id no puede exceder 255 caracteres" Option.none)
    else Except.ok ()

/-- MessageValidator.validate_content (validators.py lines 50-60). -/
def validate_content (v : PyVal) : Except PyErr Unit :=
  match v with
  | PyVal.none =>
    Except.error (PyErr.invalidFormatError "content debe ser una cadena" Option.none)
  | PyVal.str s =>
    if pyLen (pyStrip s) = 0 then
      Except.error (PyErr.invalidFormatError "content no puede estar vacío" Option.none)
    else if pyLen s > 5000 then
      Except.error
        (PyErr.invalidFormatError "content no puede exceder 5000 caracteres" Option.none)
    else Except.ok ()

/-- MessageValidator.validate_sender (validators.py lines 62-72). -/
def validate_sender (v : PyVal) : Except PyErr Unit :=
  match v with
  | PyVal.none =>
    Except.error (PyErr.invalidFormatError "sender debe ser una cadena" Option.none)
  | PyVal.str s =>
    if VALID_SENDERS.contains s then Except.ok ()
    else
      Except.error
        (PyErr.invalidFormatError
          "El campo \u0027sender\u0027 debe ser \u0027user\u0027 o \u0027system\u0027"
          (some ("valid_senders", VALID_SENDERS)))

/-- Required fields of MessageValidator.validate_message_data (validators.py line 27). -/
def REQUIRED_FIELDS_DATA : List String := ["session_id", "content", "sender"]

/-- Whether a required field is absent from the dict or mapped to None
(`field not in data or data[field] is None`, validators.py line 28). -/
def absentOrNone (data : MsgData) (f : String) : Bool :=
  match List.lookup f data with
  | Option.none => true
  | some v => v = PyVal.none

/-- Dict indexing `data[k]`: KeyError when the key is absent. -/
def dGetE (data : MsgData) (k : String) : Except PyErr PyVal :=
  match List.lookup k data with
  | some v => Except.ok v
  | Option.none => Except.error (PyErr.keyError k)

/-- MessageValidator.validate_message_data (validators.py lines 14-39). -/
def validate_message_data (data : MsgData) : Except PyErr Unit :=
  let missing := REQUIRED_FIELDS_DATA.filter (absentOrNone data)
  if missing.isEmpty then
    match dGetE data "session_id" with
    | Except.error e => Except.error e
    | Except.ok sid =>
      match validate_session_id sid with
      | Except.error e => Except.error e
      | Except.ok () =>
        match dGetE data "content" with
        | Except.error e => Except.error e
        | Except.ok c =>
          match validate_content c with
          | Except.error e => Except.error e
          | Except.ok () =>
            match dGetE data "sender" with
            | Except.error e => Except.error e
            | Except.ok snd => validate_sender snd
  else
    Except.error
      (PyErr.validationError ("Campos requeridos faltantes: " ++ String.intercalate ", " missing)
        (some ("missing_fields", missing)))

/-- ContentFilter.check_inappropriate_content (validators.py lines 77-100). -/
def check_inappropriate_content (content : String) (inappropriate_words : List String) :
    Except PyErr Unit :=
  let content_lower := pyLower content
  let found_words := inappropriate_words.filter (fun w => pyContains content_lower (pyLower w))
  if found_words.isEmpty then Except.ok ()
  else
    Except.error
      (PyErr.inappropriateContentError "El mensaje contiene contenido inapropiado"
        (some ("inappropriate_words_found", found_words)))

/-- PaginationValidator.validate_pagination_params (validators.py lines 105-123). -/
def validate_pagination_params (limit offset : Int) (max_limit : Int) : Int × Int :=
  let limit := if limit < 1 then 10 else if limit > max_limit then max_limit else limit
  let offset := if offset < 0 then 0 else offset
  (limit, offset)

/-- Modelled from the spec: `MessageValidator.validate_timestamp` is invoked by
the service (message_service.py lines 91 and 170) but is absent from
src/app/utils/validators.py.  Spec section 4.1: the timestamp "must parse as
ISO-8601 (including a trailing `Z` treated as UTC offset) — else
InvalidFormatError citing the expected format"; parsing follows the schema
check `datetime.fromisoformat` after replacing a trailing Z by +00:00
(message_schema.py lines 18-28), whose test asserts the message cites
"formato ISO 8601". -/
def validate_timestamp (v : PyVal) : Except PyErr Timestamp :=
  match v with
  | PyVal.str s =>
    match parseTimestamp s with
    | some t => Except.ok t
    | Option.none =>
      Except.error
        (PyErr.invalidFormatError
          "timestamp debe estar en formato ISO 8601 (ej: 2023-06-15T14:30:00Z)" Option.none)
  | PyVal.none =>
    Except.error
      (PyErr.invalidFormatError
        "timestamp debe estar en formato ISO 8601 (ej: 2023-06-15T14:30:00Z)" Option.none)

/-- A stored message row (models/message.py; the surrogate autoincrement id and
the bookkeeping created_at/updated_at columns are bookkeeping the claims never
touch and are elided). -/
structure Message where
  message_id : String
  session_id : String
  content : String
  timestamp : Timestamp
  sender : String
  word_count : Nat
  character_count : Nat
deriving DecidableEq

/-- Message._calculate_word_count (models/message.py lines 63-67). -/
def calc_word_count (content : String) : Nat :=
  if content = "" then 0 else (pySplitWs content).length

/-- Environment values the Message constructor draws from the machine when it
must generate defaults: the strftime rendering %Y%m%d_%H%M%S of now, the random
`str(uuid.uuid4())`, and `datetime.now(timezone.utc)`. -/
structure GenEnv where
  nowStr : String
  uuidHex : String
  nowUtc : Timestamp

/-- Message.__init__ (models/message.py lines 36-61): generates
`msg_<YYYYMMDD_HHMMSS>_<first 8 uuid chars>` when message_id is None, defaults
the timestamp to now-UTC, and computes the counts when not supplied. -/
def Message.init (env : GenEnv) (session_id content sender : String)
    (message_id : Option String) (timestamp : Option Timestamp)
    (word_count character_count : Option Nat) : Message :=
  let mid :=
    match message_id with
    | Option.none => "msg_" ++ env.nowStr ++ "_" ++ String.mk (env.uuidHex.toList.take 8)
    | some m => m
  { message_id := mid
    session_id := session_id
    content := content
    timestamp := timestamp.getD env.nowUtc
    sender := sender
    word_count := word_count.getD (calc_word_count content)
    character_count := character_count.getD (pyLen content) }

/-- Metadata block of the external view (models/message.py lines 82-85). -/
structure MsgMeta where
  word_count : Nat
  character_count : Nat
deriving DecidableEq

/-- External view of a stored message (models/message.py to_dict). -/
structure MsgDict where
  message_id : String
  session_id : String
  content : String
  timestamp : String
  sender : String
  metadata : MsgMeta
deriving DecidableEq

/-- Message.to_dict (models/message.py lines 69-86): reads the stored columns;
the metadata counts are not recomputed from the content. -/
def Message.to_dict (m : Message) : MsgDict :=
  { message_id := m.message_id
    session_id := m.session_id
    content := m.content
    timestamp := m.timestamp.isoformat ++ "Z"
    sender := m.sender
    metadata := { word_count := m.word_count, character_count := m.character_count } }

/-- MessageRepository.exists_by_message_id (message_repository.py lines 93-106):
an EXISTS query against the message_id column; a non-string value matches no
string column value. -/
def exists_by_message_id (db : List Message) (message_id : PyVal) : Bool :=
  db.any (fun m => message_id = PyVal.str m.message_id)

/-- Stable insertion into a timestamp-ascending list. -/
def insertAscByTs (m : Message) : List Message → List Message
  | [] => [m]
  | x :: xs =>
    if Timestamp.leB x.timestamp m.timestamp then x :: insertAscByTs m xs
    else m :: x :: xs

/-- Stable sort by ascending timestamp (ORDER BY timestamp ASC). -/
def sortAscByTs : List Message → List Message
  | [] => []
  | x :: xs => insertAscByTs x (sortAscByTs xs)

/-- Stable insertion into a timestamp-descending list. -/
def insertDescByTs (m : Message) : List Message → List Message
  | [] => [m]
  | x :: xs =>
    if Timestamp.leB m.timestamp x.timestamp then x :: insertDescByTs m xs
    else m :: x :: xs

/-- Stable sort by descending timestamp (ORDER BY timestamp DESC). -/
def sortDescByTs : List Message → List Message
  | [] => []
  | x :: xs => insertDescByTs x (sortDescByTs xs)

/-- MessageRepository.find_by_session_id (message_repository.py lines 52-91):
filter by session_id, then by sender only when sender is truthy (`if sender:`),
count, then order ascending by timestamp and apply offset/limit. -/
def find_by_session_id (db : List Message) (session_id : String)
    (limit offset : Int) (sender : Option String) : List Message × Nat :=
  let q := db.filter (fun m => m.session_id = session_id)
  let q :=
    match sender with
    | some s => if s = "" then q else q.filter (fun m => m.sender = s)
    | Option.none => q
  (((sortAscByTs q).drop offset.toNat).take limit.toNat, q.length)

/-- MessageRepository.search_globally backed by Message.search_globally and
Message.count_global_search_results (models/message.py lines 137-169):
case-insensitive substring match of the query against content
(an ilike match on the lowered query), ordered by descending timestamp. -/
def search_globally (db : List Message) (query : String) (limit offset : Int) :
    List Message × Nat :=
  let found := db.filter (fun m => pyContains (pyLower m.content) (pyLower query))
  (((sortDescByTs found).drop offset.toNat).take limit.toNat, found.length)

/-- Required fields of MessageService._validate_basic_fields
(message_service.py line 253). -/
def REQUIRED_FIELDS_BASIC : List String :=
  ["message_id", "session_id", "timestamp", "content", "sender"]

/-- Whether a basic field is absent or blank:
`field not in message_data or not str(message_data.get(field)).strip()`
(message_service.py line 257).  Note a field present with value None passes,
since `str(None) = "None"` does not strip to empty. -/
def basicMissing (data : MsgData) (f : String) : Bool :=
  match List.lookup f data with
  | Option.none => true
  | some v => pyStrip v.pyStr = ""

/-- MessageService._validate_basic_fields (message_service.py lines 251-264).
When fields are missing the source executes
`raise ValidationError(code="MISSING_FIELDS", message=...)`; since
`ValidationError.__init__` (exceptions.py line 18) accepts only
`(message, details)`, that raise itself fails with a TypeError, which is what
propagates to the caller. -/
def validate_basic_fields (data : MsgData) : Except PyErr Unit :=
  let missing := REQUIRED_FIELDS_BASIC.filter (basicMissing data)
  if missing.isEmpty then Except.ok ()
  else Except.error (PyErr.typeError valErrKwargMsg)

/-- MessageService._create_message_from_data (message_service.py lines 159-181):
validate the timestamp, then call the Message constructor with the dict values.
The two degenerate branches mirror what the Python runtime does on non-string
values that survived the basic check: a None content fails in
`Message.__init__` at `len(content)`, and a None session_id or sender is
rejected by the nullable=False columns (models/message.py lines 25, 28) when
`repository.save` commits, surfacing as DatabaseError
(message_repository.py lines 30-35). -/
def create_message_from_data (env : GenEnv) (data : MsgData) : Except PyErr Message :=
  match dGetE data "timestamp" with
  | Except.error e => Except.error e
  | Except.ok tsv =>
  match validate_timestamp tsv with
  | Except.error e => Except.error e
  | Except.ok ts =>
  match dGetE data "message_id" with
  | Except.error e => Except.error e
  | Except.ok midv =>
  match dGetE data "session_id" with
  | Except.error e => Except.error e
  | Except.ok sidv =>
  match dGetE data "content" with
  | Except.error e => Except.error e
  | Except.ok cv =>
  match dGetE data "sender" with
  | Except.error e => Except.error e
  | Except.ok sndv =>
  match cv with
  | PyVal.none => Except.error (PyErr.typeError "object of type NoneType has no len")
  | PyVal.str c =>
    match sidv, sndv with
    | PyVal.str sid, PyVal.str snd =>
      let mid : Option String :=
        match midv with
        | PyVal.none => Option.none
        | PyVal.str s => some s
      Except.ok (Message.init env sid c snd mid (some ts) Option.none Option.none)
    | _, _ =>
      Except.error
        (PyErr.databaseError "Error al guardar mensaje: columna nullable=False con valor None")

/-- MessageService.process_message (message_service.py lines 28-63): basic field
check, duplicate-id check, content filter, construction, save, and return of
the stored view.  The state (list of stored rows) is threaded explicitly; on
any error the state is unchanged (nothing was committed). -/
def process_message (env : GenEnv) (db : List Message) (inappropriate_words : List String)
    (message_data : MsgData) : Except PyErr MsgDict × List Message :=
  match validate_basic_fields message_data with
  | Except.error e => (Except.error e, db)
  | Except.ok () =>
    let midv := (List.lookup "message_id" message_data).getD PyVal.none
    if midv.truthy && exists_by_message_id db midv then
      (Except.error
        (PyErr.validationError ("Ya existe un mensaje con ID: " ++ midv.pyStr) Option.none), db)
    else
      match List.lookup "content" message_data with
      | Option.none => (Except.error (PyErr.keyError "content"), db)
      | some PyVal.none =>
        (Except.error (PyErr.attributeError "NoneType object has no attribute lower"), db)
      | some (PyVal.str c) =>
        match check_inappropriate_content c inappropriate_words with
        | Except.error e => (Except.error e, db)
        | Except.ok () =>
          match create_message_from_data env message_data with
          | Except.error e => (Except.error e, db)
          | Except.ok msg => (Except.ok msg.to_dict, db ++ [msg])

/-- Whether the optional sender argument is truthy (`if sender:`). -/
def senderTruthy : Option String → Bool
  | some s => s ≠ ""
  | Option.none => false

/-- Whether the optional sender argument lies in VALID_SENDERS. -/
def senderValid : Option String → Bool
  | some s => VALID_SENDERS.contains s
  | Option.none => false

/-- Pagination block of the session listing response. -/
structure Pagination where
  total : Nat
  limit : Int
  offset : Int
  has_next : Bool
  has_prev : Bool
deriving DecidableEq

/-- Session listing response (message_service.py lines 129-138). -/
structure SessionMessagesResponse where
  messages : List MsgDict
  pagination : Pagination
deriving DecidableEq

/-- MessageService.get_messages_by_session (message_service.py lines 94-138). -/
def get_messages_by_session (db : List Message) (session_id : String)
    (limit offset : Int) (sender : Option String) : Except PyErr SessionMessagesResponse :=
  let lo := validate_pagination_params limit offset 100
  let limit := lo.1
  let offset := lo.2
  if senderTruthy sender && !senderValid sender then
    Except.error
      (PyErr.validationError
        "sender debe ser uno de: [\u0027user\u0027, \u0027system\u0027]" Option.none)
  else
    let mt := find_by_session_id db session_id limit offset sender
    Except.ok
      { messages := mt.1.map Message.to_dict
        pagination :=
          { total := mt.2
            limit := limit
            offset := offset
            has_next := offset + limit < (mt.2 : Int)
            has_prev := offset > 0 } }

/-- Pagination block of the global search response. -/
structure SearchPagination where
  total_results : Nat
  limit : Int
  offset : Int
  next_offset : Option Int
deriving DecidableEq

/-- Global search response (message_service.py lines 237-245). -/
structure SearchResponse where
  data : List MsgDict
  pagination : SearchPagination
deriving DecidableEq

/-- MessageService.search_messages_globally (message_service.py lines 204-245).
On a query that is falsy or shorter than 3 characters after stripping, the
source executes `raise ValidationError(..., code="SEARCH_QUERY_TOO_SHORT")`;
`ValidationError.__init__` (exceptions.py line 18) accepts only
`(message, details)`, so that raise itself fails with a TypeError. -/
def search_messages_globally (db : List Message) (query : String) (limit offset : Int) :
    Except PyErr SearchResponse :=
  if query = "" ∨ pyLen (pyStrip query) < 3 then
    Except.error (PyErr.typeError valErrKwargMsg)
  else
    let lo := validate_pagination_params limit offset 100
    let limit := lo.1
    let offset := lo.2
    let mt := search_globally db query limit offset
    Except.ok
      { data := mt.1.map Message.to_dict
        pagination :=
          { total_results := mt.2
            limit := limit
            offset := offset
            next_offset :=
              if offset + limit < (mt.2 : Int) then some (offset + limit) else Option.none } }

/-- Whether an Except value is a success. -/
def isOkB {α : Type} : Except PyErr α → Bool
  | Except.ok _ => true
  | Except.error _ => false

/-- A fixed machine environment for concrete runs. -/
def env0 : GenEnv :=
  { nowStr := "20230615_143000", uuidHex := "abcdef1234", nowUtc := ⟨2023, 6, 15, 14, 30, 0⟩ }

/-- A well-formed input record (all five required fields, parseable timestamp). -/
def okData : MsgData :=
  [("message_id", PyVal.str "m1"), ("session_id", PyVal.str "s1"),
   ("content", PyVal.str "hola mundo"), ("timestamp", PyVal.str "2023-06-15T14:30:00Z"),
   ("sender", PyVal.str "user")]

/-- Helper: if some required basic field is absent or blank, the basic check
fails with the TypeError from the malformed ValidationError raise. -/
theorem validate_basic_fields_err (data : MsgData) (f : String)
    (hf : f ∈ REQUIRED_FIELDS_BASIC) (hp : basicMissing data f = true) :
    validate_basic_fields data = Except.error (PyErr.typeError valErrKwargMsg) := by
  have hmem : f ∈ REQUIRED_FIELDS_BASIC.filter (basicMissing data) :=
    List.mem_filter.mpr ⟨hf, hp⟩
  have hne : (REQUIRED_FIELDS_BASIC.filter (basicMissing data)).isEmpty = false := by
    cases hfl : REQUIRED_FIELDS_BASIC.filter (basicMissing data) with
    | nil => rw [hfl] at hmem; cases hmem
    | cons a l => rfl
  simp [validate_basic_fields, hne]

/-- Helper: a passing basic check means every required basic field is present
and non-blank. -/
theorem validate_basic_fields_ok_field (data : MsgData) (f : String)
    (hf : f ∈ REQUIRED_FIELDS_BASIC) (hb : validate_basic_fields data = Except.ok ()) :
    basicMissing data f = false := by
  by_cases h : (REQUIRED_FIELDS_BASIC.filter (basicMissing data)).isEmpty = true
  · have hnil : REQUIRED_FIELDS_BASIC.filter (basicMissing data) = [] := List.isEmpty_iff.mp h
    have hnp := List.filter_eq_nil_iff.mp hnil f hf
    cases hbm : basicMissing data f with
    | false => rfl
    | true => exact absurd hbm hnp
  · rw [validate_basic_fields] at hb
    rw [if_neg h] at hb
    cases hb

/-- C7: the ContentFilter raises InappropriateContentError if and only if some
configured forbidden word occurs as a case-insensitive substring of the
content; the error details carry the list of all matching words, and with no
match the filter is a no-op. -/
theorem C7_content_filter (content : String) (words : List String) :
    (check_inappropriate_content content words = Except.ok () ↔
      ∀ w ∈ words, pyContains (pyLower content) (pyLower w) = false) ∧
    ((∃ w ∈ words, pyContains (pyLower content) (pyLower w) = true) →
      check_inappropriate_content content words =
        Except.error (PyErr.inappropriateContentError "El mensaje contiene contenido inapropiado"
          (some ("inappropriate_words_found",
            words.filter (fun w => pyContains (pyLower content) (pyLower w)))))) := by
  have key : (words.filter (fun w => pyContains (pyLower content) (pyLower w))).isEmpty = true ↔
      ∀ w ∈ words, pyContains (pyLower content) (pyLower w) = false := by
    rw [List.isEmpty_iff, List.filter_eq_nil_iff]
    simp
  by_cases h : (words.filter (fun w => pyContains (pyLower content) (pyLower w))).isEmpty = true
  · constructor
    · exact iff_of_true (by simp [check_inappropriate_content, h]) (key.mp h)
    · rintro ⟨w, hw, hp⟩
      exfalso
      have := key.mp h w hw
      rw [this] at hp
      cases hp
  · constructor
    · apply iff_of_false
      · simp [check_inappropriate_content, h]
      · intro hall
        exact h (key.mpr hall)
    · intro _
      simp [check_inappropriate_content, h]

/-- Witness for C7 at the scenario of spec section 8: content "buy spam now"
with denylist containing "spam" yields the error listing exactly ["spam"]. -/
theorem C7_witness :
    (∃ w ∈ ["spam", "virus"], pyContains (pyLower "buy spam now") (pyLower w) = true) ∧
    check_inappropriate_content "buy spam now" ["spam", "virus"] =
      Except.error (PyErr.inappropriateContentError "El mensaje contiene contenido inapropiado"
        (some ("inappropriate_words_found", ["spam"]))) :=
  ⟨⟨"spam", by decide, by decide⟩,
   (C7_content_filter "buy spam now" ["spam", "virus"]).2 ⟨"spam", by decide, by decide⟩⟩

/-- C8: pagination normalization is total and clamps exactly as specified with
the default max_limit of 100: limit below 1 becomes 10, limit above 100 becomes
100, other limits pass through; negative offset becomes 0, other offsets pass
through. -/
theorem C8_pagination_clamp (limit offset : Int) :
    ((limit < 1 → (validate_pagination_params limit offset 100).1 = 10) ∧
     (limit > 100 → (validate_pagination_params limit offset 100).1 = 100) ∧
     (1 ≤ limit → limit ≤ 100 → (validate_pagination_params limit offset 100).1 = limit)) ∧
    ((offset < 0 → (validate_pagination_params limit offset 100).2 = 0) ∧
     (0 ≤ offset → (validate_pagination_params limit offset 100).2 = offset)) := by
  unfold validate_pagination_params
  refine ⟨⟨fun h => by simp [h], fun h => ?_, fun h1 h2 => ?_⟩,
          fun h => by simp [h], fun h => by simp [not_lt.mpr h]⟩
  · have h1 : ¬ limit < 1 := by omega
    simp [h1, h]
  · have h3 : ¬ limit < 1 := by omega
    have h4 : ¬ limit > 100 := by omega
    simp [h3, h4]

/-- Witness for C8 at the spec scenario inputs limit = -5, offset = -10. -/
theorem C8_witness :
    (-5 : Int) < 1 ∧ (validate_pagination_params (-5) (-10) 100).1 = 10 ∧
    (-10 : Int) < 0 ∧ (validate_pagination_params (-5) (-10) 100).2 = 0 :=
  ⟨by decide, (C8_pagination_clamp (-5) (-10)).1.1 (by decide),
   by decide, (C8_pagination_clamp (-5) (-10)).2.1 (by decide)⟩

/-- C9: a Message constructed without explicit counts gets word_count equal to
the number of whitespace-delimited tokens of the content and character_count
equal to the character length of the content, and to_dict only reads the
stored counts (for every Message value, consistent or not), never recomputing
them. -/
theorem C9_message_metadata :
    (∀ (env : GenEnv) (sid c snd : String) (mid : Option String) (ts : Option Timestamp),
      (Message.init env sid c snd mid ts Option.none Option.none).word_count =
        (pySplitWs c).length ∧
      (Message.init env sid c snd mid ts Option.none Option.none).character_count = pyLen c) ∧
    (∀ m : Message,
      m.to_dict.metadata.word_count = m.word_count ∧
      m.to_dict.metadata.character_count = m.character_count) := by
  constructor
  · intro env sid c snd mid ts
    refine ⟨?_, rfl⟩
    show calc_word_count c = (pySplitWs c).length
    unfold calc_word_count
    split
    · next h => rw [h]; rfl
    · rfl
  · intro m
    exact ⟨rfl, rfl⟩

/-- C10: an empty-string sender is falsy, so it neither trips the sender
validation nor reaches the repository as a filter; the call behaves exactly
like a call with no sender, and it succeeds. -/
theorem C10_empty_sender (db : List Message) (sid : String) (limit offset : Int) :
    get_messages_by_session db sid limit offset (some "") =
      get_messages_by_session db sid limit offset Option.none ∧
    ∃ r, get_messages_by_session db sid limit offset (some "") = Except.ok r := by
  exact ⟨rfl, ⟨_, rfl⟩⟩

/-- C2: a query shorter than three characters after trimming makes
search_messages_globally fail, but with a TypeError, not a ValidationError
carrying SEARCH_QUERY_TOO_SHORT: the source passes the keyword argument
`code` to `ValidationError`, whose constructor does not accept it. -/
theorem C2_search_query_too_short (db : List Message) (query : String) (limit offset : Int)
    (h : pyLen (pyStrip query) < 3) :
    search_messages_globally db query limit offset =
      Except.error (PyErr.typeError valErrKwargMsg) ∧
    (PyErr.typeError valErrKwargMsg).code ≠ some "SEARCH_QUERY_TOO_SHORT" := by
  refine ⟨?_, by simp [PyErr.code]⟩
  unfold search_messages_globally
  rw [if_pos (Or.inr h)]

/-- Witness for C2 at the two-character query "ab". -/
theorem C2_witness :
    pyLen (pyStrip "ab") < 3 ∧
    search_messages_globally [] "ab" 10 0 = Except.error (PyErr.typeError valErrKwargMsg) ∧
    (PyErr.typeError valErrKwargMsg).code ≠ some "SEARCH_QUERY_TOO_SHORT" :=
  ⟨by decide, (C2_search_query_too_short [] "ab" 10 0 (by decide)).1,
   (C2_search_query_too_short [] "ab" 10 0 (by decide)).2⟩

/-- Input whose sender the per-field Validator would reject. -/
def c4_data : MsgData :=
  [("message_id", PyVal.str "m-bad"), ("session_id", PyVal.str "s1"),
   ("content", PyVal.str "Contenido valido"), ("timestamp", PyVal.str "2023-06-15T14:30:00Z"),
   ("sender", PyVal.str "invalid_sender")]

/-- C4: process_message never invokes the per-field Validator checks (the
method that runs them, `_validate_all_required_fields`, is dead code): the
validator rejects the sender "invalid_sender", yet process_message persists
that record and returns its view instead of failing with InvalidFormatError. -/
theorem C4_per_field_checks_not_run :
    validate_sender (PyVal.str "invalid_sender") =
      Except.error (PyErr.invalidFormatError
        "El campo \u0027sender\u0027 debe ser \u0027user\u0027 o \u0027system\u0027"
        (some ("valid_senders", VALID_SENDERS))) ∧
    process_message env0 [] [] c4_data =
      (Except.ok
        { message_id := "m-bad", session_id := "s1", content := "Contenido valido",
          timestamp := "2023-06-15T14:30:00Z", sender := "invalid_sender",
          metadata := { word_count := 2, character_count := 16 } },
       [{ message_id := "m-bad", session_id := "s1", content := "Contenido valido",
          timestamp := ⟨2023, 6, 15, 14, 30, 0⟩, sender := "invalid_sender",
          word_count := 2, character_count := 16 }]) :=
  ⟨rfl, rfl⟩

/-- Helper: validate_session_id either succeeds or fails with an
InvalidFormatError. -/
theorem validate_session_id_cases (v : PyVal) :
    validate_session_id v = Except.ok () ∨
    ∃ m d, validate_session_id v = Except.error (PyErr.invalidFormatError m d) := by
  cases v with
  | none => exact Or.inr ⟨"session_id debe ser una cadena no vacía", Option.none, rfl⟩
  | str s =>
    by_cases h1 : pyStrip s = ""
    · exact Or.inr ⟨"session_id debe ser una cadena no vacía", Option.none,
        by simp [validate_session_id, h1]⟩
    · by_cases h2 : pyLen s > 255
      · exact Or.inr ⟨"session_id no puede exceder 255 caracteres", Option.none,
          by simp [validate_session_id, h1, h2]⟩
      · exact Or.inl (by simp [validate_session_id, h1, h2])

/-- Helper: validate_content either succeeds or fails with an
InvalidFormatError. -/
theorem validate_content_cases (v : PyVal) :
    validate_content v = Except.ok () ∨
    ∃ m d, validate_content v = Except.error (PyErr.invalidFormatError m d) := by
  cases v with
  | none => exact Or.inr ⟨"content debe ser una cadena", Option.none, rfl⟩
  | str s =>
    by_cases h1 : pyLen (pyStrip s) = 0
    · exact Or.inr ⟨"content no puede estar vacío", Option.none,
        by simp [validate_content, h1]⟩
    · by_cases h2 : pyLen s > 5000
      · exact Or.inr ⟨"content no puede exceder 5000 caracteres", Option.none,
          by simp [validate_content, h1, h2]⟩
      · exact Or.inl (by simp [validate_content, h1, h2])

/-- Helper: validate_sender either succeeds or fails with an
InvalidFormatError. -/
theorem validate_sender_cases (v : PyVal) :
    validate_sender v = Except.ok () ∨
    ∃ m d, validate_sender v = Except.error (PyErr.invalidFormatError m d) := by
  cases v with
  | none => exact Or.inr ⟨"sender debe ser una cadena", Option.none, rfl⟩
  | str s =>
    by_cases h : s ∈ VALID_SENDERS
    · exact Or.inl (by simp [validate_sender, h])
    · exact Or.inr ⟨"El campo \u0027sender\u0027 debe ser \u0027user\u0027 o \u0027system\u0027",
        some ("valid_senders", VALID_SENDERS), by simp [validate_sender, h]⟩

/-- C5 (amended): validate_message_data raises a single ValidationError whose
details name exactly the required fields that are absent or None; when no
required field is absent or None it never raises that error — blank-but-present
fields instead fail the per-field checks with InvalidFormatError. -/
theorem C5_missing_fields (data : MsgData) :
    (REQUIRED_FIELDS_DATA.filter (absentOrNone data) ≠ [] →
      validate_message_data data =
        Except.error (PyErr.validationError
          ("Campos requeridos faltantes: " ++
            String.intercalate ", " (REQUIRED_FIELDS_DATA.filter (absentOrNone data)))
          (some ("missing_fields", REQUIRED_FIELDS_DATA.filter (absentOrNone data))))) ∧
    (REQUIRED_FIELDS_DATA.filter (absentOrNone data) = [] →
      validate_message_data data = Except.ok () ∨
      ∃ m d, validate_message_data data = Except.error (PyErr.invalidFormatError m d)) := by
  constructor
  · intro h
    have hne : (REQUIRED_FIELDS_DATA.filter (absentOrNone data)).isEmpty = false := by
      cases hfl : REQUIRED_FIELDS_DATA.filter (absentOrNone data) with
      | nil => exact absurd hfl h
      | cons a l => rfl
    simp [validate_message_data, hne]
  · intro h
    have hemp : (REQUIRED_FIELDS_DATA.filter (absentOrNone data)).isEmpty = true := by
      rw [h]; rfl
    have hfield : ∀ f ∈ REQUIRED_FIELDS_DATA, ∃ s, List.lookup f data = some (PyVal.str s) := by
      intro f hf
      have hnp := List.filter_eq_nil_iff.mp h f hf
      cases hl : List.lookup f data with
      | none => exact absurd (by simp [absentOrNone, hl]) hnp
      | some v =>
        cases v with
        | none => exact absurd (by simp [absentOrNone, hl]) hnp
        | str s => exact ⟨s, rfl⟩
    obtain ⟨s1, hl1⟩ := hfield "session_id" (by decide)
    obtain ⟨s2, hl2⟩ := hfield "content" (by decide)
    obtain ⟨s3, hl3⟩ := hfield "sender" (by decide)
    rcases validate_session_id_cases (PyVal.str s1) with hv1 | ⟨m1, d1, hv1⟩
    swap
    · exact Or.inr ⟨m1, d1, by simp [validate_message_data, hemp, dGetE, hl1, hv1]⟩
    rcases validate_content_cases (PyVal.str s2) with hv2 | ⟨m2, d2, hv2⟩
    swap
    · exact Or.inr ⟨m2, d2, by simp [validate_message_data, hemp, dGetE, hl1, hl2, hv1, hv2]⟩
    rcases validate_sender_cases (PyVal.str s3) with hv3 | ⟨m3, d3, hv3⟩
    · exact Or.inl (by simp [validate_message_data, hemp, dGetE, hl1, hl2, hl3, hv1, hv2, hv3])
    · exact Or.inr ⟨m3, d3,
        by simp [validate_message_data, hemp, dGetE, hl1, hl2, hl3, hv1, hv2, hv3]⟩

/-- Input with a blank (but present) session_id and a None content. -/
def c5_data : MsgData :=
  [("session_id", PyVal.str "   "), ("content", PyVal.none), ("sender", PyVal.str "user")]

/-- Counterexample to C5 as stated: session_id is blank after trimming, yet
the single missing-fields error names only content — a blank-after-trimming
field is not included in the details. -/
theorem C5_counterexample :
    pyStrip "   " = "" ∧
    validate_message_data c5_data =
      Except.error (PyErr.validationError "Campos requeridos faltantes: content"
        (some ("missing_fields", ["content"]))) :=
  ⟨rfl, rfl⟩

/-- Witness for C5 on a record missing session_id and sender and carrying a
None content: the single error names all three. -/
theorem C5_witness :
    REQUIRED_FIELDS_DATA.filter (absentOrNone [("content", PyVal.none)]) ≠ [] ∧
    validate_message_data [("content", PyVal.none)] =
      Except.error (PyErr.validationError
        "Campos requeridos faltantes: session_id, content, sender"
        (some ("missing_fields", ["session_id", "content", "sender"]))) :=
  ⟨by decide, (C5_missing_fields [("content", PyVal.none)]).1 (by decide)⟩

/-- Input with message_id and timestamp absent. -/
def c3_data : MsgData :=
  [("session_id", PyVal.str "s1"), ("content", PyVal.str "hola"), ("sender", PyVal.str "user")]

/-- C3 (amended): process_message requires message_id and timestamp — when
either is absent the basic-field check flags it and the service fails (the
raise of the MISSING_FIELDS ValidationError itself crashes with a TypeError
because ValidationError accepts no code keyword), persisting nothing; the
msg_<timestamp>_<hex> generation and the now-UTC default exist only in the
Message constructor and are not reached through process_message. -/
theorem C3_requires_id_and_timestamp (env : GenEnv) (db : List Message)
    (words : List String) (data : MsgData)
    (h : List.lookup "message_id" data = Option.none ∨
         List.lookup "timestamp" data = Option.none) :
    process_message env db words data = (Except.error (PyErr.typeError valErrKwargMsg), db) := by
  have hb : validate_basic_fields data = Except.error (PyErr.typeError valErrKwargMsg) := by
    cases h with
    | inl h =>
      have hp : basicMissing data "message_id" = true := by simp [basicMissing, h]
      exact validate_basic_fields_err data "message_id" (by decide) hp
    | inr h =>
      have hp : basicMissing data "timestamp" = true := by simp [basicMissing, h]
      exact validate_basic_fields_err data "timestamp" (by decide) hp
  simp [process_message, hb]

/-- Counterexample to C3 as stated: on input lacking message_id and timestamp,
process_message does not generate defaults and store the record — it fails and
persists nothing. -/
theorem C3_counterexample :
    List.lookup "message_id" c3_data = Option.none ∧
    List.lookup "timestamp" c3_data = Option.none ∧
    process_message env0 [] [] c3_data = (Except.error (PyErr.typeError valErrKwargMsg), []) :=
  ⟨rfl, rfl, rfl⟩

/-- Witness for C3 on the record lacking message_id and timestamp. -/
theorem C3_witness :
    (List.lookup "message_id" c3_data = Option.none ∨
     List.lookup "timestamp" c3_data = Option.none) ∧
    process_message env0 [] [] c3_data = (Except.error (PyErr.typeError valErrKwargMsg), []) :=
  ⟨Or.inl rfl, C3_requires_id_and_timestamp env0 [] [] c3_data (Or.inl rfl)⟩

/-- C1 (amended): an input record (string-valued fields) that passes the
required-field check, the duplicate-id check and the content filter, and whose
timestamp parses as ISO-8601, is turned into a Message, appended to the store,
and its external view — message_id, session_id, content, timestamp, sender,
and metadata with word_count and character_count — is returned with no error. -/
theorem C1_process_message_success (env : GenEnv) (db : List Message) (words : List String)
    (data : MsgData) (mid sid c snd tss : String) (ts : Timestamp)
    (hmid : List.lookup "message_id" data = some (PyVal.str mid))
    (hsid : List.lookup "session_id" data = some (PyVal.str sid))
    (hc : List.lookup "content" data = some (PyVal.str c))
    (hsnd : List.lookup "sender" data = some (PyVal.str snd))
    (hts : List.lookup "timestamp" data = some (PyVal.str tss))
    (hbasic : validate_basic_fields data = Except.ok ())
    (hdup : exists_by_message_id db (PyVal.str mid) = false)
    (hfilter : check_inappropriate_content c words = Except.ok ())
    (hparse : validate_timestamp (PyVal.str tss) = Except.ok ts) :
    process_message env db words data =
      (Except.ok
        { message_id := mid, session_id := sid, content := c,
          timestamp := ts.isoformat ++ "Z", sender := snd,
          metadata := { word_count := calc_word_count c, character_count := pyLen c } },
       db ++ [{ message_id := mid, session_id := sid, content := c, timestamp := ts,
                sender := snd, word_count := calc_word_count c,
                character_count := pyLen c }]) := by
  have hcreate : create_message_from_data env data =
      Except.ok { message_id := mid, session_id := sid, content := c, timestamp := ts,
                  sender := snd, word_count := calc_word_count c,
                  character_count := pyLen c } := by
    simp [create_message_from_data, dGetE, hts, hparse, hmid, hsid, hc, hsnd, Message.init]
  simp [process_message, hbasic, hmid, hdup, hc, hfilter, hcreate, Message.to_dict]

/-- A record whose timestamp does not parse but which passes the three checks
the claim names. -/
def c1bad_data : MsgData :=
  [("message_id", PyVal.str "m1"), ("session_id", PyVal.str "s1"),
   ("content", PyVal.str "hola mundo"), ("timestamp", PyVal.str "not-a-valid-timestamp"),
   ("sender", PyVal.str "user")]

/-- Counterexample to C1 as stated: this record passes required-field
validation, the duplicate-id check and the content filter, yet process_message
raises InvalidFormatError (the timestamp-parse step the claim omits) instead
of persisting and returning a view. -/
theorem C1_counterexample :
    validate_basic_fields c1bad_data = Except.ok () ∧
    exists_by_message_id [] (PyVal.str "m1") = false ∧
    check_inappropriate_content "hola mundo" [] = Except.ok () ∧
    process_message env0 [] [] c1bad_data =
      (Except.error (PyErr.invalidFormatError
        "timestamp debe estar en formato ISO 8601 (ej: 2023-06-15T14:30:00Z)" Option.none),
       []) :=
  ⟨rfl, rfl, rfl, rfl⟩

/-- Witness for C1 on a fully valid record. -/
theorem C1_witness :
    validate_basic_fields okData = Except.ok () ∧
    exists_by_message_id [] (PyVal.str "m1") = false ∧
    check_inappropriate_content "hola mundo" ["spam"] = Except.ok () ∧
    validate_timestamp (PyVal.str "2023-06-15T14:30:00Z") =
      Except.ok ⟨2023, 6, 15, 14, 30, 0⟩ ∧
    process_message env0 [] ["spam"] okData =
      (Except.ok
        { message_id := "m1", session_id := "s1", content := "hola mundo",
          timestamp := "2023-06-15T14:30:00Z", sender := "user",
          metadata := { word_count := 2, character_count := 10 } },
       [{ message_id := "m1", session_id := "s1", content := "hola mundo",
          timestamp := ⟨2023, 6, 15, 14, 30, 0⟩, sender := "user",
          word_count := 2, character_count := 10 }]) :=
  ⟨rfl, rfl, rfl, rfl,
   C1_process_message_success env0 [] ["spam"] okData "m1" "s1" "hola mundo" "user"
     "2023-06-15T14:30:00Z" ⟨2023, 6, 15, 14, 30, 0⟩ rfl rfl rfl rfl rfl rfl rfl rfl rfl⟩

/-- Helper: a successful process_message call appended exactly one row, and
when the input supplied a message_id string, the stored row carries it. -/
theorem process_ok_stores_id (env : GenEnv) (db : List Message) (w : List String)
    (data : MsgData) (s : String) (view : MsgDict) (db1 : List Message)
    (h1 : List.lookup "message_id" data = some (PyVal.str s))
    (hok : process_message env db w data = (Except.ok view, db1)) :
    ∃ msg : Message, db1 = db ++ [msg] ∧ msg.message_id = s := by
  cases hb : validate_basic_fields data with
  | error e => simp [process_message, hb] at hok
  | ok u =>
    cases u
    have hget : ∀ f ∈ REQUIRED_FIELDS_BASIC,
        ∃ v, List.lookup f data = some v ∧ pyStrip v.pyStr ≠ "" := by
      intro f hf
      have hbf := validate_basic_fields_ok_field data f hf hb
      cases hl : List.lookup f data with
      | none =>
        have hbt : basicMissing data f = true := by simp [basicMissing, hl]
        rw [hbt] at hbf
        exact Bool.noConfusion hbf
      | some v =>
        refine ⟨v, rfl, fun hblank => ?_⟩
        have hbt : basicMissing data f = true := by simp [basicMissing, hl, hblank]
        rw [hbt] at hbf
        exact Bool.noConfusion hbf
    obtain ⟨tsv, htl, _⟩ := hget "timestamp" (by decide)
    obtain ⟨sidv, hsl, _⟩ := hget "session_id" (by decide)
    obtain ⟨cv, hcl, _⟩ := hget "content" (by decide)
    obtain ⟨sndv, hnl, _⟩ := hget "sender" (by decide)
    obtain ⟨mv, hml, hmb⟩ := hget "message_id" (by decide)
    rw [h1] at hml
    injection hml with hml
    subst hml
    have hsne : s ≠ "" := fun h0 => hmb (by rw [h0]; rfl)
    have htr : (PyVal.str s).truthy = true := by simp [PyVal.truthy, hsne]
    by_cases hex : exists_by_message_id db (PyVal.str s) = true
    · simp [process_message, hb, h1, htr, hex] at hok
    · have hexf : exists_by_message_id db (PyVal.str s) = false := by
        cases hE : exists_by_message_id db (PyVal.str s) with
        | true => exact absurd hE hex
        | false => rfl
      cases cv with
      | none => simp [process_message, hb, h1, hexf, hcl] at hok
      | str c =>
        cases hfil : check_inappropriate_content c w with
        | error e => simp [process_message, hb, h1, hexf, hcl, hfil] at hok
        | ok u =>
          cases u
          cases hvt : validate_timestamp tsv with
          | error e =>
            have hcr : create_message_from_data env data = Except.error e := by
              simp [create_message_from_data, dGetE, htl, hvt]
            simp [process_message, hb, h1, hexf, hcl, hfil, hcr] at hok
          | ok ts =>
            cases sidv with
            | none =>
              have hcr : create_message_from_data env data = Except.error
                  (PyErr.databaseError
                    "Error al guardar mensaje: columna nullable=False con valor None") := by
                simp [create_message_from_data, dGetE, htl, hvt, h1, hsl, hcl, hnl]
              simp [process_message, hb, h1, hexf, hcl, hfil, hcr] at hok
            | str sid =>
              cases sndv with
              | none =>
                have hcr : create_message_from_data env data = Except.error
                    (PyErr.databaseError
                      "Error al guardar mensaje: columna nullable=False con valor None") := by
                  simp [create_message_from_data, dGetE, htl, hvt, h1, hsl, hcl, hnl]
                simp [process_message, hb, h1, hexf, hcl, hfil, hcr] at hok
              | str snd =>
                have hcr : create_message_from_data env data = Except.ok
                    (Message.init env sid c snd (some s) (some ts)
                      Option.none Option.none) := by
                  simp [create_message_from_data, dGetE, htl, hvt, h1, hsl, hcl, hnl]
                have hp : process_message env db w data =
                    (Except.ok (Message.init env sid c snd (some s) (some ts)
                        Option.none Option.none).to_dict,
                     db ++ [Message.init env sid c snd (some s) (some ts)
                        Option.none Option.none]) := by
                  simp [process_message, hb, h1, hexf, hcl, hfil, hcr]
                rw [hp] at hok
                have hdb : db1 = db ++ [Message.init env sid c snd (some s) (some ts)
                    Option.none Option.none] := by
                  have hsnd2 := congrArg Prod.snd hok
                  simpa using hsnd2.symm
                exact ⟨_, hdb, rfl⟩

/-- C6 (amended): when the supplied message_id already exists, process_message
fails and persists nothing, and whenever the input also passes the
required-field presence check the failure is the duplicate-id ValidationError
(an input failing that check fails in the presence check instead); hence of
two create calls with the same supplied message_id at most one succeeds. -/
theorem C6_duplicate_id (env1 env2 : GenEnv) (db : List Message) (w1 w2 : List String)
    (data1 data2 : MsgData) (s : String) (view : MsgDict) (db1 : List Message)
    (h1 : List.lookup "message_id" data1 = some (PyVal.str s))
    (h2 : List.lookup "message_id" data2 = some (PyVal.str s))
    (hok : process_message env1 db w1 data1 = (Except.ok view, db1)) :
    (process_message env2 db1 w2 data2).2 = db1 ∧
    isOkB (process_message env2 db1 w2 data2).1 = false ∧
    (validate_basic_fields data2 = Except.ok () →
      (process_message env2 db1 w2 data2).1 =
        Except.error (PyErr.validationError ("Ya existe un mensaje con ID: " ++ s)
          Option.none)) := by
  obtain ⟨msg, hdb1, hid⟩ := process_ok_stores_id env1 db w1 data1 s view db1 h1 hok
  have hex : exists_by_message_id db1 (PyVal.str s) = true := by
    subst hdb1
    simp [exists_by_message_id, hid]
  have hsne : s ≠ "" := by
    intro h0
    subst h0
    have hbm : basicMissing data1 "message_id" = true := by
      rw [basicMissing, h1]; rfl
    have hbe := validate_basic_fields_err data1 "message_id" (by decide) hbm
    simp [process_message, hbe] at hok
  have htr : (PyVal.str s).truthy = true := by simp [PyVal.truthy, hsne]
  cases hb2 : validate_basic_fields data2 with
  | error e =>
    have hp2 : process_message env2 db1 w2 data2 = (Except.error e, db1) := by
      simp [process_message, hb2]
    exact ⟨by rw [hp2], by rw [hp2]; rfl,
      fun hok2 => Except.noConfusion hok2⟩
  | ok u =>
    cases u
    have hp2 : process_message env2 db1 w2 data2 =
        (Except.error (PyErr.validationError ("Ya existe un mensaje con ID: " ++ s)
          Option.none), db1) := by
      simp [process_message, hb2, h2, htr, hex, PyVal.pyStr]
    exact ⟨by rw [hp2], by rw [hp2]; rfl, fun _ => by rw [hp2]⟩

/-- A store already holding a row with id m1. -/
def c6_db : List Message :=
  [{ message_id := "m1", session_id := "s1", content := "hola",
     timestamp := ⟨2023, 6, 15, 14, 30, 0⟩, sender := "user",
     word_count := 1, character_count := 4 }]

/-- A record supplying the already-stored id m1 but missing other fields. -/
def c6_dup_data : MsgData := [("message_id", PyVal.str "m1")]

/-- Counterexample to C6 as stated: this input supplies a message_id that
already exists, and process_message does fail without persisting — but with a
TypeError from the earlier presence check, not with a ValidationError. -/
theorem C6_counterexample :
    exists_by_message_id c6_db (PyVal.str "m1") = true ∧
    process_message env0 c6_db [] c6_dup_data =
      (Except.error (PyErr.typeError valErrKwargMsg), c6_db) ∧
    (PyErr.typeError valErrKwargMsg).code ≠ some "VALIDATION_ERROR" :=
  ⟨rfl, rfl, by decide⟩

/-- A fully valid record with id m-dup. -/
def c6ok_data : MsgData :=
  [("message_id", PyVal.str "m-dup"), ("session_id", PyVal.str "s1"),
   ("content", PyVal.str "hola"), ("timestamp", PyVal.str "2023-06-15T14:30:00Z"),
   ("sender", PyVal.str "user")]

/-- The row the first create call stores. -/
def c6msg : Message :=
  { message_id := "m-dup", session_id := "s1", content := "hola",
    timestamp := ⟨2023, 6, 15, 14, 30, 0⟩, sender := "user",
    word_count := 1, character_count := 4 }

/-- The view the first create call returns. -/
def c6view : MsgDict :=
  { message_id := "m-dup", session_id := "s1", content := "hola",
    timestamp := "2023-06-15T14:30:00Z", sender := "user",
    metadata := { word_count := 1, character_count := 4 } }

/-- Witness for C6: the first create call with id m-dup succeeds; the second
identical call fails with the duplicate-id ValidationError and stores nothing. -/
theorem C6_witness :
    process_message env0 [] [] c6ok_data = (Except.ok c6view, [c6msg]) ∧
    (process_message env0 [c6msg] [] c6ok_data).2 = [c6msg] ∧
    isOkB (process_message env0 [c6msg] [] c6ok_data).1 = false ∧
    (process_message env0 [c6msg] [] c6ok_data).1 =
      Except.error (PyErr.validationError "Ya existe un mensaje con ID: m-dup"
        Option.none) := by
  have hok : process_message env0 [] [] c6ok_data = (Except.ok c6view, [c6msg]) := rfl
  have h := C6_duplicate_id env0 env0 [] [] [] c6ok_data c6ok_data "m-dup" c6view
    [c6msg] rfl rfl hok
  exact ⟨hok, h.1, h.2.1, h.2.2 rfl⟩
